import Mathlib

/-!
Verification development for the RnG growth dashboard
(`src/streamlit-snowflake-app/src`).

The numeric core of the application is pandas arithmetic on float64
columns.  We embed that arithmetic exactly over the rationals, with the
IEEE non-finite values (`+inf`, `-inf`, `NaN`) made explicit: pandas'
missing values (`NaN` / `pd.NA`) are both modelled by the `nan`
constructor, since in the float frames manipulated by the app both
behave as the single missing value.
-/

/-- A pandas float64 cell value: a finite rational or one of the three
IEEE non-finite values.  `nan` also stands for pandas' missing value
(`NaN` / `pd.NA`). -/
inductive PVal where
  | fin (q : ℚ)
  | posInf
  | negInf
  | nan
deriving DecidableEq, Repr

namespace PVal

/-- IEEE subtraction, as performed by `pandas` on float columns. -/
def sub : PVal → PVal → PVal
  | fin a, fin b => fin (a - b)
  | fin _, posInf => negInf
  | fin _, negInf => posInf
  | posInf, fin _ => posInf
  | negInf, fin _ => negInf
  | posInf, negInf => posInf
  | negInf, posInf => negInf
  | posInf, posInf => nan
  | negInf, negInf => nan
  | _, _ => nan

/-- IEEE division, as performed by `pandas`/`numpy` on float columns
(division-by-zero warnings are suppressed by the app, line 30 of
`app.py`): `x / 0` is `±inf` for `x ≠ 0` and `NaN` for `x = 0`. -/
def div : PVal → PVal → PVal
  | fin a, fin b =>
      if b = 0 then (if a = 0 then nan else if 0 < a then posInf else negInf)
      else fin (a / b)
  | fin _, posInf => fin 0
  | fin _, negInf => fin 0
  | posInf, fin b => if 0 ≤ b then posInf else negInf
  | negInf, fin b => if 0 ≤ b then negInf else posInf
  | _, _ => nan

/-- Multiplication by a positive literal constant (the `* 100` in the
ratio-metric formulas). -/
def scale (c : ℚ) : PVal → PVal
  | fin a => fin (a * c)
  | posInf => if 0 < c then posInf else if c = 0 then nan else negInf
  | negInf => if 0 < c then negInf else if c = 0 then nan else posInf
  | nan => nan

/-- `.replace(0, pd.NA)` applied to a denominator column: a zero becomes
the missing value (and then poisons the division to `NaN`). -/
def replace0NA : PVal → PVal
  | fin q => if q = 0 then nan else fin q
  | v => v

/-- `.replace([pd.NA, float('inf'), -float('inf')], 0)`: every
non-finite value is coerced to `0`. -/
def coerce0 : PVal → PVal
  | fin q => fin q
  | _ => fin 0

/-- Whether a value is finite (neither `±inf` nor `NaN`). -/
def isFinite : PVal → Bool
  | fin _ => true
  | _ => false

/-- Whether a value is the pandas missing value (`NaN`, i.e. null). -/
def isNA : PVal → Bool
  | nan => true
  | _ => false

end PVal

/-- Round a rational to `n` decimal places (the model of pandas
`.round(n)`; the same function is used on the specification side, so
the claims compare the two formulas, not two rounding conventions). -/
def roundTo (n : ℕ) (q : ℚ) : ℚ := (round (q * (10 : ℚ) ^ n) : ℤ) / (10 : ℚ) ^ n

/-- `.round(n)` on a float column: rounds finite values, leaves
non-finite values unchanged. -/
def PVal.roundP (n : ℕ) : PVal → PVal
  | fin q => fin (roundTo n q)
  | v => v

/-! ### Derived Metric Calculator

One definition per call site; the three sites guard their zero
denominators differently.
-/

/-- DoD view, `app.py` line 276:
`df['tu_vu_pct'] = (df['transacting_users'] / df['visitors'] * 100).round(2)`
— the denominator is NOT guarded against zero. -/
def tu_vu_pct_dod (tu visitors : PVal) : PVal :=
  ((tu.div visitors).scale 100).roundP 2

/-- DoD view, `app.py` line 277:
`df['vu_pct'] = (df['visitors'] / df['base'] * 100).round(2)` — unguarded. -/
def vu_pct_dod (visitors base : PVal) : PVal :=
  ((visitors.div base).scale 100).roundP 2

/-- DoD view, `app.py` line 278:
`df['repeat_rate'] = (df['orders_on_date'] / df['transacting_users']).round(2)`
— unguarded. -/
def repeat_rate_dod (orders tu : PVal) : PVal :=
  (orders.div tu).roundP 2

/-- City view, `app.py` line 417:
`(df['transacting_users'] / df['visitors'].replace(0, pd.NA) * 100).round(2)`
— the ONLY guarded metric of the city view. -/
def tu_vu_pct_city (tu visitors : PVal) : PVal :=
  ((tu.div visitors.replace0NA).scale 100).roundP 2

/-- City view, `app.py` line 418: unguarded, like the DoD version. -/
def vu_pct_city (visitors base : PVal) : PVal :=
  ((visitors.div base).scale 100).roundP 2

/-- City view, `app.py` line 419: unguarded, like the DoD version. -/
def repeat_rate_city (orders tu : PVal) : PVal :=
  (orders.div tu).roundP 2

/-- Chart view, `app.py` line 726:
`(df['transacting_users'] / df['visitors'].replace(0, pd.NA) * 100).round(2)`
— guarded. -/
def tu_vu_pct_chart (tu visitors : PVal) : PVal :=
  ((tu.div visitors.replace0NA).scale 100).roundP 2

/-- Chart view, `app.py` line 727: guarded. -/
def vu_pct_chart (visitors base : PVal) : PVal :=
  ((visitors.div base.replace0NA).scale 100).roundP 2

/-- Chart view, `app.py` line 728: guarded. -/
def repeat_rate_chart (orders tu : PVal) : PVal :=
  (orders.div tu.replace0NA).roundP 2

/-! ### Delta computations -/

/-- DoD view `app.py` line 339 (identically city view line 492):
`pivot_df['Absolute Diff'] = pivot_df[dates[1]] - pivot_df[dates[0]]`. -/
def absDiffDoD (sel cmp : PVal) : PVal := sel.sub cmp

/-- DoD view `app.py` line 342 (identically city view line 495):
`((pivot_df[dates[1]] - pivot_df[dates[0]]) / pivot_df[dates[0]] * 100).round(1)`
— NO zero-guard on the compare value and NO coercion of the result. -/
def pctChangeDoD (sel cmp : PVal) : PVal :=
  (((sel.sub cmp).div cmp).scale 100).roundP 1

/-- Hourly-DPO view, `app.py` lines 645-646:
`((pivot_sel - pivot_cmp) / pivot_cmp.replace(0, pd.NA) * 100).round(1)`
followed by `.replace([pd.NA, float('inf'), -float('inf')], 0)`. -/
def pctChangeHourly (sel cmp : PVal) : PVal :=
  ((((sel.sub cmp).div cmp.replace0NA).scale 100).roundP 1).coerce0

/-- Hourly-DPO view, percentage-point mode for `pct_disc_orders`,
`app.py` lines 640-641: `(pivot_sel - pivot_cmp)` then the same
non-finite coercion. -/
def ppChangeHourly (sel cmp : PVal) : PVal :=
  (sel.sub cmp).coerce0

/-! ### Pivot Builder (DoD view)

`app.py` lines 321-326: `df_metric.pivot_table(values=metric,
index=['category','cohorts'], columns='start_date', aggfunc='sum')`.
A pivot's columns are the distinct dates occurring in the data (sorted
ascending, as the later `dates = sorted(pivot_df.columns)` re-asserts);
its row keys are the distinct `(category, cohorts)` pairs; a cell for a
(key, date) combination with no underlying rows is the missing value
`NaN` (pandas `pivot_table` has no `fill_value` here), otherwise the
sum of the matching rows' values.  The model's row order may differ
from pandas' (which sorts the index); the code re-sorts rows via
`sort_category_cohorts` immediately afterwards, so only membership
matters.
-/

/-- A row dimension key: `(category, cohorts)`. -/
abbrev Key := String × String

/-- One long-format input row, for a fixed metric column. -/
structure RawRow where
  category : String
  cohorts : String
  start_date : ℕ
  value : ℚ
deriving DecidableEq, Repr

/-- The key of a raw row. -/
def RawRow.key (r : RawRow) : Key := (r.category, r.cohorts)

/-- The pivot's column labels: distinct dates, ascending. -/
def pivotDates (rs : List RawRow) : List ℕ :=
  List.insertionSort (· ≤ ·) (rs.map RawRow.start_date).dedup

/-- The pivot's row keys: distinct `(category, cohorts)` pairs. -/
def pivotKeys (rs : List RawRow) : List Key :=
  (rs.map RawRow.key).dedup

/-- One pivot cell: `NaN` when no row matches the (key, date)
combination, otherwise the sum (`aggfunc='sum'`) of matching values. -/
def pivotCell (rs : List RawRow) (k : Key) (d : ℕ) : PVal :=
  match rs.filter (fun r => decide (r.key = k ∧ r.start_date = d)) with
  | [] => PVal.nan
  | ms => PVal.fin (ms.map RawRow.value).sum

/-- A pivot table: column dates plus rows of cells (one cell per date,
in date order). -/
structure Pivot where
  dates : List ℕ
  rows : List (Key × List PVal)
deriving DecidableEq, Repr

/-- `pivot_table` for the DoD view (sum aggregation, rounding applied
per cell as in `.round(2)` on the frame). -/
def buildPivot (rs : List RawRow) : Pivot :=
  { dates := pivotDates rs
    rows := (pivotKeys rs).map
      (fun k => (k, (pivotDates rs).map (fun d => (pivotCell rs k d).roundP 2))) }

/-! ### Pivot Aligner & Delta Computer, DoD/city path

`app.py` lines 334-345 (city: 487-498): only when the pivot has exactly
two distinct date columns, drop the rows whose value is exactly `0` on
both dates, then append `% Change` and `Absolute Diff` columns.
-/

/-- One row of the DoD/city delta table: `% Change`, `Absolute Diff`,
selected value, compare value (`app.py` line 345 column order). -/
structure DeltaRow where
  key : Key
  pctChange : PVal
  absDiff : PVal
  sel : PVal
  cmp : PVal
deriving DecidableEq, Repr

/-- Lines 336-342: filter the both-zero rows
(`~((pivot_df[dates[0]] == 0) & (pivot_df[dates[1]] == 0))`; a `NaN`
cell compares unequal to 0, so such rows are kept), then compute the
delta columns.  `c0` is the cell at `dates[0]` (compare side), `c1` at
`dates[1]` (selected side). -/
def dodDeltaRows (rows : List (Key × List PVal)) : List DeltaRow :=
  rows.filterMap (fun kc =>
    match kc.2 with
    | [c0, c1] =>
        if c0 = PVal.fin 0 ∧ c1 = PVal.fin 0 then none
        else some ⟨kc.1, pctChangeDoD c1 c0, absDiffDoD c1 c0, c1, c0⟩
    | _ => none)

/-- The rendered DoD/city table: either the pivot unchanged (no delta
columns) or the pivot extended with the delta columns. -/
inductive DodView where
  | plain (p : Pivot)
  | withDelta (d : List DeltaRow)
deriving DecidableEq, Repr

/-- Whether delta columns were appended. -/
def DodView.hasDelta : DodView → Bool
  | .plain _ => false
  | .withDelta _ => true

/-- Lines 334-336: `dates = sorted(pivot_df.columns); if len(dates) == 2:`
— the delta block runs only for exactly two date columns; otherwise the
pivot is shown as is and no error is raised (the branch is simply
skipped). -/
def dodRender (p : Pivot) : DodView :=
  if p.dates.length = 2 then .withDelta (dodDeltaRows p.rows) else .plain p

/-! ### Pivot Aligner, hourly-DPO path

`app.py` line 637:
`pivot_sel.align(pivot_cmp, join='outer', axis=0, fill_value=0)` —
the row index becomes the union of the two indices and a key missing
from one side gets value 0 there.  We model one column slice of the
aligned pivots as association lists keyed by `(category, cohorts)`.
(`align` sorts the union index; the model's key order may differ, but
the two agree on membership, which is all the claims use.)
-/

/-- The union of the two pivots' row keys. -/
def alignKeys (sel cmp : List (Key × PVal)) : List Key :=
  (sel.map Prod.fst ++ cmp.map Prod.fst).dedup

/-- Value of a key after outer-join alignment with `fill_value=0`. -/
def lookupOr0 (p : List (Key × PVal)) (k : Key) : PVal :=
  match p.find? (fun e => decide (e.1 = k)) with
  | some e => e.2
  | none => PVal.fin 0

/-- The hourly-DPO `% Change` table (one hour column): union of keys,
each mapped to the coerced percentage change of the aligned values
(lines 637, 645-646).  No both-zero row suppression happens on this
path (unlike DoD line 336 and city line 489). -/
def hourlyDelta (sel cmp : List (Key × PVal)) : List (Key × PVal) :=
  (alignKeys sel cmp).map (fun k => (k, pctChangeHourly (lookupOr0 sel k) (lookupOr0 cmp k)))

/-! ### Aggregation-function selection -/

/-- A `pivot_table` aggregation function. -/
inductive AggFunc where
  | sum
  | mean
deriving DecidableEq, Repr

/-- Applying an aggregation function to the duplicate cell values of
one (row-key, column-key) pair. -/
def AggFunc.apply : AggFunc → List ℚ → ℚ
  | .sum, xs => xs.sum
  | .mean, xs => xs.sum / xs.length

/-- DoD view, `app.py` line 325: `aggfunc='sum'` for EVERY metric,
ratio metrics (`tu_vu_pct`, `vu_pct`, `repeat_rate`) included. -/
def dodAggfunc (metric : String) : AggFunc := AggFunc.sum

/-- City view, `app.py` lines 464/467: mean for the three ratio city
metrics, sum otherwise. -/
def cityAggfunc (m : String) : AggFunc :=
  if m = "tu_vu_pct_city" ∨ m = "vu_pct_city" ∨ m = "repeat_rate_city" then
    AggFunc.mean
  else AggFunc.sum

/-- Hourly-DPO view, `app.py` lines 601/621: `aggfunc='mean'` for every
metric. -/
def hourlyAggfunc (metric : String) : AggFunc := AggFunc.mean

/-! ### Dimension Sorter (`utils.py` lines 170-192)

`sort_category_cohorts` acts on a dataframe: if both a `category` and a
`cohorts` column exist, it attaches to each row the rank
`custom_order.index((category, cohorts))` — or `len(custom_order)` when
the pair is not in the list — sorts the rows by that rank, drops the
helper column and resets the index; otherwise it returns the dataframe
untouched.

The model represents a dataframe as a column-name list plus rows of
cells.  `sort_values` is called with its default algorithm
(`kind='quicksort'`), whose relative order of equal ranks pandas leaves
unspecified; the model fixes one implementation (a stable insertion
sort).  Every property proved below about the sorted output is
insensitive to that choice: it holds for any reordering that is a
permutation sorted by rank.
-/

/-- A dataframe cell: a string (dimension column) or a numeric value. -/
inductive Cell where
  | str (s : String)
  | num (v : PVal)
deriving DecidableEq, Repr

/-- A dataframe: named columns and rows of cells. -/
structure DataFrame where
  columns : List String
  rows : List (List Cell)
deriving DecidableEq, Repr

/-- The value of a row in a named string column (the model only reads
columns that exist and hold strings). -/
def getStr (cols : List String) (row : List Cell) (c : String) : String :=
  match row.get? (List.indexOf c cols) with
  | some (Cell.str s) => s
  | _ => ""

/-- `utils.py` lines 171-183: the canonical `(category, cohorts)`
ordering. -/
def custom_order : List (String × String) :=
  [("NU", "New Users"),
   ("RU_last30_Days", "RU1-5"),
   ("RU_last30_Days", "RU6-10"),
   ("RU_last30_Days", "RU10+"),
   ("DU_30_45_Days", "RU1-5"),
   ("DU_30_45_Days", "RU6-10"),
   ("DU_30_45_Days", "RU10+"),
   ("DU_45+_Days", "RU1-5"),
   ("DU_45+_Days", "RU6-10"),
   ("DU_45+_Days", "RU10+"),
   ("Unassigned", "Unassigned")]

/-- `utils.py` lines 185-189: the sort rank of a key pair —
`custom_order.index(pair)` if present, else `len(custom_order)`.
(`List.indexOf` returns the length when the element is absent, exactly
the Python expression's semantics.) -/
def keyRank (k : String × String) : ℕ :=
  @List.indexOf (String × String) instBEqOfDecidableEq k custom_order

/-- The sort rank of a dataframe row (`__sort_order` column). -/
def rowRank (cols : List String) (row : List Cell) : ℕ :=
  keyRank (getStr cols row ("category"), getStr cols row ("cohorts"))

/-- `df.sort_values("__sort_order")`, modelled by a sort on the row
rank (see the section comment about tie order). -/
def sortByRank (cols : List String) (rows : List (List Cell)) : List (List Cell) :=
  List.insertionSort (fun a b => rowRank cols a ≤ rowRank cols b) rows

/-- `utils.py` lines 170-192, `sort_category_cohorts`: reorder the rows
by rank when both dimension columns exist, otherwise return the
dataframe unchanged.  (The `__sort_order` helper column is dropped
again before returning and `reset_index(drop=True)` discards the old
index, so the columns and cell values are untouched either way.) -/
def sort_category_cohorts (df : DataFrame) : DataFrame :=
  if "category" ∈ df.columns ∧ "cohorts" ∈ df.columns then
    { df with rows := sortByRank df.columns df.rows }
  else df

/-! ### Helper lemmas -/

/-- The non-finite coercion always yields a finite value. -/
theorem PVal.coerce0_isFinite (v : PVal) : v.coerce0.isFinite = true := by
  cases v <;> rfl

/-- Evaluating `roundTo` on a value that is already exact at `n`
decimals: if `q * 10 ^ n` is the integer `z`, rounding leaves `q`
unchanged. -/
theorem roundTo_int (n : ℕ) (q : ℚ) (z : ℤ) (hz : q * 10 ^ n = (z : ℚ)) :
    roundTo n q = q := by
  have h10 : (10 : ℚ) ^ n ≠ 0 := by positivity
  unfold roundTo
  rw [hz, round_intCast, div_eq_iff h10]
  exact hz.symm

/-- A duplicate-free list all of whose elements are equal has at most
one element. -/
theorem length_le_one_of_nodup_const {l : List ℕ} {d : ℕ}
    (hn : l.Nodup) (hd : ∀ x ∈ l, x = d) : l.length ≤ 1 := by
  match l with
  | [] => simp
  | [_] => simp
  | x :: y :: t =>
    exfalso
    have hx : x = d := hd x (by simp)
    have hy : y = d := hd y (by simp)
    rw [List.nodup_cons] at hn
    exact hn.1 (by simp [hx, hy])

/-! ### Claim theorems -/

/-- Claim C1, counterexample: in the DoD view's delta computation
(`app.py` line 342), the aligned pair selected = 5, compare = 0 yields
`+inf` — not `0` as the claim states for every aligned pivot pair. -/
theorem C1_counterexample :
    pctChangeDoD (PVal.fin 5) (PVal.fin 0) = PVal.posInf ∧
    pctChangeDoD (PVal.fin 5) (PVal.fin 0) ≠ PVal.fin 0 := by
  have h : pctChangeDoD (PVal.fin 5) (PVal.fin 0) = PVal.posInf := by
    norm_num [pctChangeDoD, PVal.sub, PVal.div, PVal.scale, PVal.roundP]
  exact ⟨h, by simp [h]⟩

/-- Claim C1, amended: in the hourly-DPO view's delta computation
(`app.py` lines 644-646) the percentage change equals
`(selected - compare) / compare * 100` rounded to 1 decimal whenever
compare is nonzero, and is `0` (not infinity, not an error) when
compare is `0`, regardless of the selected value; the DoD and city
views' percentage change (lines 339-342, 492-495) instead yields a
non-finite value when compare is `0`. -/
theorem C1_pctChange_hourly (s c : ℚ) :
    (c ≠ 0 → pctChangeHourly (PVal.fin s) (PVal.fin c) =
        PVal.fin (roundTo 1 ((s - c) / c * 100))) ∧
    pctChangeHourly (PVal.fin s) (PVal.fin 0) = PVal.fin 0 := by
  constructor
  · intro h
    simp [pctChangeHourly, PVal.sub, PVal.div, PVal.scale, PVal.replace0NA,
      PVal.roundP, PVal.coerce0, h]
  · simp [pctChangeHourly, PVal.sub, PVal.div, PVal.scale, PVal.replace0NA,
      PVal.roundP, PVal.coerce0]

/-- Claim C1, witness: compare = 5, selected = 0 yields `-100.0`;
compare = 0, selected = 5 yields `0`. -/
theorem C1_pctChange_hourly_witness :
    pctChangeHourly (PVal.fin 0) (PVal.fin 5) = PVal.fin (-100) ∧
    pctChangeHourly (PVal.fin 5) (PVal.fin 0) = PVal.fin 0 := by
  constructor
  · rw [(C1_pctChange_hourly 0 5).1 (by norm_num)]
    have h1 : ((0 : ℚ) - 5) / 5 * 100 = -100 := by norm_num
    rw [h1, roundTo_int 1 (-100) (-1000) (by norm_num)]
  · exact (C1_pctChange_hourly 5 0).2

/-- Claim C2, counterexample: the DoD delta table (`app.py` lines
336-342) for the single aligned row compare = 0, selected = 5 contains
`+inf` in its `% Change` column — the non-finite value is NOT coerced
to 0 on this path. -/
theorem C2_counterexample :
    (dodDeltaRows [(("NU", "New Users"), [PVal.fin 0, PVal.fin 5])]).map
        DeltaRow.pctChange = [PVal.posInf] ∧
    PVal.posInf.isFinite = false := by
  constructor
  · have h5 : pctChangeDoD (PVal.fin 5) (PVal.fin 0) = PVal.posInf := by
      norm_num [pctChangeDoD, PVal.sub, PVal.div, PVal.scale, PVal.roundP]
    simp [dodDeltaRows, List.filterMap_cons, h5]
  · rfl

/-- Claim C2, amended: in the hourly-DPO view (`app.py` lines 637-646)
every non-finite intermediate is coerced to 0 before output, so its
delta table never contains a non-finite value, in both the
percentage-change and the percentage-point mode; the DoD and city
delta columns (lines 336-342, 489-495) have no such coercion and can
contain non-finite values. -/
theorem C2_hourly_delta_finite (s c : PVal) :
    (pctChangeHourly s c).isFinite = true ∧
    (ppChangeHourly s c).isFinite = true :=
  ⟨PVal.coerce0_isFinite _, PVal.coerce0_isFinite _⟩

/-- Claim C3, counterexample: in the DoD view (`app.py` line 276) the
derived metric `tu_vu_pct` for a row with transacting_users = 5,
visitors = 0 is `+inf` — not null. -/
theorem C3_counterexample :
    tu_vu_pct_dod (PVal.fin 5) (PVal.fin 0) = PVal.posInf ∧
    (tu_vu_pct_dod (PVal.fin 5) (PVal.fin 0)).isNA = false := by
  have h : tu_vu_pct_dod (PVal.fin 5) (PVal.fin 0) = PVal.posInf := by
    norm_num [tu_vu_pct_dod, PVal.div, PVal.scale, PVal.roundP]
  exact ⟨h, by simp [h, PVal.isNA]⟩

/-- Claim C3, amended: only the chart view (`app.py` lines 726-728)
guards all three derived metrics, making them null (NaN) exactly when
the denominator is 0 and the rounded formula otherwise; in the city
view (lines 417-419) only `tu_vu_pct_city` is guarded, and in the DoD
view (lines 276-278) none is — there a zero denominator with a
positive numerator produces `+inf`, not null. -/
theorem C3_derived_metric_guards (tu v b o : ℚ) :
    (tu_vu_pct_chart (PVal.fin tu) (PVal.fin 0)).isNA = true
    ∧ (v ≠ 0 → tu_vu_pct_chart (PVal.fin tu) (PVal.fin v) =
        PVal.fin (roundTo 2 (tu / v * 100)))
    ∧ (vu_pct_chart (PVal.fin v) (PVal.fin 0)).isNA = true
    ∧ (b ≠ 0 → vu_pct_chart (PVal.fin v) (PVal.fin b) =
        PVal.fin (roundTo 2 (v / b * 100)))
    ∧ (repeat_rate_chart (PVal.fin o) (PVal.fin 0)).isNA = true
    ∧ (tu ≠ 0 → repeat_rate_chart (PVal.fin o) (PVal.fin tu) =
        PVal.fin (roundTo 2 (o / tu)))
    ∧ (tu_vu_pct_city (PVal.fin tu) (PVal.fin 0)).isNA = true
    ∧ (0 < tu → tu_vu_pct_dod (PVal.fin tu) (PVal.fin 0) = PVal.posInf)
    ∧ (0 < v → vu_pct_dod (PVal.fin v) (PVal.fin 0) = PVal.posInf)
    ∧ (0 < v → vu_pct_city (PVal.fin v) (PVal.fin 0) = PVal.posInf)
    ∧ (0 < o → repeat_rate_dod (PVal.fin o) (PVal.fin 0) = PVal.posInf)
    ∧ (0 < o → repeat_rate_city (PVal.fin o) (PVal.fin 0) = PVal.posInf) := by
  refine ⟨?_, ?_, ?_, ?_, ?_, ?_, ?_, ?_, ?_, ?_, ?_, ?_⟩
  · simp [tu_vu_pct_chart, PVal.div, PVal.scale, PVal.replace0NA,
      PVal.roundP, PVal.isNA]
  · intro h
    simp [tu_vu_pct_chart, PVal.div, PVal.scale, PVal.replace0NA, PVal.roundP, h]
  · simp [vu_pct_chart, PVal.div, PVal.scale, PVal.replace0NA,
      PVal.roundP, PVal.isNA]
  · intro h
    simp [vu_pct_chart, PVal.div, PVal.scale, PVal.replace0NA, PVal.roundP, h]
  · simp [repeat_rate_chart, PVal.div, PVal.scale, PVal.replace0NA,
      PVal.roundP, PVal.isNA]
  · intro h
    simp [repeat_rate_chart, PVal.div, PVal.replace0NA, PVal.roundP, h]
  · simp [tu_vu_pct_city, PVal.div, PVal.scale, PVal.replace0NA,
      PVal.roundP, PVal.isNA]
  · intro h
    simp [tu_vu_pct_dod, PVal.div, PVal.scale, PVal.roundP, h, h.ne']
  · intro h
    simp [vu_pct_dod, PVal.div, PVal.scale, PVal.roundP, h, h.ne']
  · intro h
    simp [vu_pct_city, PVal.div, PVal.scale, PVal.roundP, h, h.ne']
  · intro h
    simp [repeat_rate_dod, PVal.div, PVal.roundP, h, h.ne']
  · intro h
    simp [repeat_rate_city, PVal.div, PVal.roundP, h, h.ne']

/-- Claim C3, witness: concrete evaluations of the amended statement at
transacting_users = 5, visitors = 2, base = 4, orders = 3 and at the
zero denominators. -/
theorem C3_witness :
    tu_vu_pct_chart (PVal.fin 5) (PVal.fin 2) = PVal.fin 250 ∧
    vu_pct_chart (PVal.fin 2) (PVal.fin 4) = PVal.fin 50 ∧
    repeat_rate_chart (PVal.fin 3) (PVal.fin 5) = PVal.fin (3 / 5) ∧
    (tu_vu_pct_chart (PVal.fin 5) (PVal.fin 0)).isNA = true ∧
    tu_vu_pct_dod (PVal.fin 5) (PVal.fin 0) = PVal.posInf := by
  refine ⟨?_, ?_, ?_, (C3_derived_metric_guards 5 2 4 3).1,
    (C3_derived_metric_guards 5 2 4 3).2.2.2.2.2.2.2.1 (by norm_num)⟩
  · rw [(C3_derived_metric_guards 5 2 4 3).2.1 (by norm_num)]
    have h1 : (5 : ℚ) / 2 * 100 = 250 := by norm_num
    rw [h1, roundTo_int 2 250 25000 (by norm_num)]
  · rw [(C3_derived_metric_guards 5 2 4 3).2.2.2.1 (by norm_num)]
    have h1 : (2 : ℚ) / 4 * 100 = 50 := by norm_num
    rw [h1, roundTo_int 2 50 5000 (by norm_num)]
  · rw [(C3_derived_metric_guards 5 2 4 3).2.2.2.2.2.1 (by norm_num)]
    rw [roundTo_int 2 (3 / 5) 60 (by norm_num)]

/-- Claim C4, counterexample: in the DoD view the two periods are
pivoted together (`app.py` lines 321-326) with no `fill_value`; for
raw rows where key `("NU","New Users")` has data only on date 1 and
key `("RU_last30_Days","RU1-5")` only on date 0, the missing side of
each key is `NaN`, not 0. -/
theorem C4_counterexample :
    pivotCell [⟨"NU", "New Users", 1, 5⟩, ⟨"RU_last30_Days", "RU1-5", 0, 3⟩]
        ("NU", "New Users") 0 = PVal.nan ∧
    ("NU", "New Users") ∈
      (buildPivot [⟨"NU", "New Users", 1, 5⟩,
        ⟨"RU_last30_Days", "RU1-5", 0, 3⟩]).rows.map Prod.fst ∧
    (buildPivot [⟨"NU", "New Users", 1, 5⟩,
        ⟨"RU_last30_Days", "RU1-5", 0, 3⟩]).dates = [0, 1] ∧
    PVal.nan ≠ PVal.fin 0 := by
  refine ⟨by decide, by decide, by decide, by decide⟩

/-- Claim C4, amended: only the hourly-DPO view aligns by outer join
with zero fill (`app.py` line 637): the aligned key set is the union
of the two pivots' keys and a key absent from one side reads as 0
there; the DoD and city views instead build one pivot whose cells
missing on one date are `NaN` (see the counterexample). -/
theorem C4_hourly_align (sel cmp : List (Key × PVal)) (k : Key)
    (rs : List RawRow) (d : ℕ) :
    (k ∈ alignKeys sel cmp ↔
      k ∈ sel.map Prod.fst ∨ k ∈ cmp.map Prod.fst)
    ∧ (k ∉ sel.map Prod.fst → lookupOr0 sel k = PVal.fin 0)
    ∧ (k ∉ cmp.map Prod.fst → lookupOr0 cmp k = PVal.fin 0)
    ∧ ((∀ r ∈ rs, ¬(r.key = k ∧ r.start_date = d)) →
        pivotCell rs k d = PVal.nan) := by
  refine ⟨?_, ?_, ?_, ?_⟩
  · simp [alignKeys, List.mem_dedup]
  · intro h
    have hf : sel.find? (fun e => decide (e.1 = k)) = none := by
      rw [List.find?_eq_none]
      intro e he
      simp only [decide_eq_true_eq]
      intro hek
      exact h (hek ▸ List.mem_map_of_mem Prod.fst he)
    simp [lookupOr0, hf]
  · intro h
    have hf : cmp.find? (fun e => decide (e.1 = k)) = none := by
      rw [List.find?_eq_none]
      intro e he
      simp only [decide_eq_true_eq]
      intro hek
      exact h (hek ▸ List.mem_map_of_mem Prod.fst he)
    simp [lookupOr0, hf]
  · intro h
    have hf : rs.filter (fun r => decide (r.key = k ∧ r.start_date = d)) = [] := by
      rw [List.filter_eq_nil_iff]
      intro r hr
      simpa using h r hr
    unfold pivotCell
    rw [hf]

/-- Claim C4, witness: with selected pivot `{NU: 5}` and compare pivot
`{RU1-5: 3}`, both keys are in the aligned union and each reads 0 on
its missing side; and a raw-row set with no data for `(NU, date 0)`
has a `NaN` pivot cell there. -/
theorem C4_witness :
    (("NU", "New Users") ∈
      alignKeys [(("NU", "New Users"), PVal.fin 5)]
        [(("RU_last30_Days", "RU1-5"), PVal.fin 3)]) ∧
    lookupOr0 [(("RU_last30_Days", "RU1-5"), PVal.fin 3)]
      ("NU", "New Users") = PVal.fin 0 ∧
    pivotCell [⟨"NU", "New Users", 1, 5⟩] ("NU", "New Users") 0 = PVal.nan := by
  refine ⟨?_, ?_, ?_⟩
  · exact (C4_hourly_align [(("NU", "New Users"), PVal.fin 5)]
      [(("RU_last30_Days", "RU1-5"), PVal.fin 3)] ("NU", "New Users") [] 0).1.mpr
      (Or.inl (by decide))
  · exact (C4_hourly_align [(("NU", "New Users"), PVal.fin 5)]
      [(("RU_last30_Days", "RU1-5"), PVal.fin 3)] ("NU", "New Users") [] 0).2.2.1
      (by decide)
  · exact (C4_hourly_align [] [] ("NU", "New Users")
      [⟨"NU", "New Users", 1, 5⟩] 0).2.2.2 (by decide)

/-- Claim C5, counterexample: the hourly-DPO view computes a delta
table (`app.py` lines 637-646) with NO both-zero suppression: a key
whose value is 0 in both the selected and the compare pivot is still
present in the final delta table (with delta 0), so the claim fails
for that comparison view. -/
theorem C5_counterexample :
    hourlyDelta [(("NU", "New Users"), PVal.fin 0)]
        [(("NU", "New Users"), PVal.fin 0)] =
      [(("NU", "New Users"), PVal.fin 0)] ∧
    ("NU", "New Users") ∈
      (hourlyDelta [(("NU", "New Users"), PVal.fin 0)]
        [(("NU", "New Users"), PVal.fin 0)]).map Prod.fst := by
  refine ⟨by decide, by decide⟩

/-- Claim C5, amended: in the DoD and city views (`app.py` lines 336
and 489) every aligned row whose value is exactly 0 in both periods is
dropped from the delta table entirely — its key is absent from the
output, not merely rendered blank; the hourly-DPO view performs no
such suppression (see the counterexample). -/
theorem C5_dod_zero_rows_dropped (rows : List (Key × List PVal)) (k : Key)
    (hnodup : (rows.map Prod.fst).Nodup)
    (hmem : (k, [PVal.fin 0, PVal.fin 0]) ∈ rows) :
    k ∉ (dodDeltaRows rows).map DeltaRow.key := by
  intro hk
  rcases List.mem_map.mp hk with ⟨dr, hdr, hdrk⟩
  rcases List.mem_filterMap.mp hdr with ⟨kc, hkc, hsome⟩
  have hkey : kc.1 = k := by
    rcases kc with ⟨k1, cs⟩
    match cs, hsome with
    | [c0, c1], hsome =>
      by_cases hz : c0 = PVal.fin 0 ∧ c1 = PVal.fin 0
      · simp [hz] at hsome
      · simp only [hz, if_false] at hsome
        rw [← hdrk, ← Option.some_injective _ hsome]
  have heq : kc = (k, [PVal.fin 0, PVal.fin 0]) :=
    List.inj_on_of_nodup_map hnodup hkc hmem (by simp [hkey])
  rw [heq] at hsome
  simp at hsome

/-- Claim C5, witness: with a both-zero row for `("NU","New Users")`
and a live row for `("RU_last30_Days","RU1-5")`, the both-zero key is
absent from the DoD delta table. -/
theorem C5_witness :
    ("NU", "New Users") ∉
      (dodDeltaRows [(("NU", "New Users"), [PVal.fin 0, PVal.fin 0]),
        (("RU_last30_Days", "RU1-5"), [PVal.fin 3, PVal.fin 4])]).map
        DeltaRow.key :=
  C5_dod_zero_rows_dropped _ _ (by decide) (by decide)

/-- Claim C6, counterexample: in the DoD view (`app.py` line 325) the
ratio metric `tu_vu_pct` is aggregated with `sum`, not `mean`: two
duplicate cells 3 and 4 combine to 7 rather than 3.5. -/
theorem C6_counterexample :
    dodAggfunc ("tu_vu_pct") = AggFunc.sum ∧
    AggFunc.sum ≠ AggFunc.mean ∧
    (dodAggfunc ("tu_vu_pct")).apply [3, 4] = 7 ∧
    AggFunc.mean.apply [3, 4] = 7 / 2 ∧
    (7 : ℚ) ≠ 7 / 2 := by
  refine ⟨rfl, by decide, ?_, ?_, by norm_num⟩
  · norm_num [dodAggfunc, AggFunc.apply]
  · norm_num [AggFunc.apply]

/-- Claim C6, amended: the aggregation function is fixed per metric
and view by a static mapping, but the mapping differs across views:
the DoD view aggregates EVERY metric (ratio metrics included) with
`sum` (`app.py` line 325), the hourly-DPO view aggregates every metric
with `mean` (lines 601/621), and only the city view (lines 464/467)
uses `mean` for the three ratio city metrics and `sum` for the rest. -/
theorem C6_aggfunc_by_view (m : String) :
    dodAggfunc m = AggFunc.sum
    ∧ hourlyAggfunc m = AggFunc.mean
    ∧ cityAggfunc ("tu_vu_pct_city") = AggFunc.mean
    ∧ cityAggfunc ("vu_pct_city") = AggFunc.mean
    ∧ cityAggfunc ("repeat_rate_city") = AggFunc.mean
    ∧ (m ≠ "tu_vu_pct_city" → m ≠ "vu_pct_city" → m ≠ "repeat_rate_city" →
        cityAggfunc m = AggFunc.sum) := by
  refine ⟨rfl, rfl, by decide, by decide, by decide, ?_⟩
  intro h1 h2 h3
  simp [cityAggfunc, h1, h2, h3]

/-- Claim C6, witness: the volume metric `base` aggregates by `sum` in
the DoD and city views and by `mean` in the hourly view. -/
theorem C6_aggfunc_witness :
    dodAggfunc ("base") = AggFunc.sum ∧
    hourlyAggfunc ("base") = AggFunc.mean ∧
    cityAggfunc ("base") = AggFunc.sum :=
  ⟨(C6_aggfunc_by_view ("base")).1, (C6_aggfunc_by_view ("base")).2.1,
    (C6_aggfunc_by_view ("base")).2.2.2.2.2 (by decide) (by decide) (by decide)⟩

/-- Claim C8: `sort_category_cohorts` (`utils.py` lines 184-191)
assigns every `(category, cohorts)` pair outside the canonical list the
rank `len(custom_order)`; every canonical pair has a strictly smaller
rank; the sorted output is a permutation of the input rows (no row is
dropped) and is ordered by ascending rank — together these give that
every unknown combination sorts after all canonical combinations while
remaining present. -/
theorem C8_unknown_rank_last (df : DataFrame) (k : String × String)
    (hc : "category" ∈ df.columns ∧ "cohorts" ∈ df.columns)
    (hk : k ∉ custom_order) :
    keyRank k = custom_order.length
    ∧ (∀ k2 ∈ custom_order, keyRank k2 < custom_order.length)
    ∧ (sort_category_cohorts df).rows.Perm df.rows
    ∧ List.Sorted (fun a b => rowRank df.columns a ≤ rowRank df.columns b)
        (sort_category_cohorts df).rows
    ∧ (sort_category_cohorts df).rows.Pairwise
        (fun a b => rowRank df.columns b < custom_order.length →
          rowRank df.columns a < custom_order.length) := by
  have hsort : (sort_category_cohorts df).rows = sortByRank df.columns df.rows := by
    simp [sort_category_cohorts, hc]
  haveI htot : IsTotal (List Cell)
      (fun a b => rowRank df.columns a ≤ rowRank df.columns b) :=
    ⟨fun a b => Nat.le_total _ _⟩
  haveI htrans : IsTrans (List Cell)
      (fun a b => rowRank df.columns a ≤ rowRank df.columns b) :=
    ⟨fun _ _ _ => Nat.le_trans⟩
  have hsorted : List.Sorted (fun a b => rowRank df.columns a ≤ rowRank df.columns b)
      (sort_category_cohorts df).rows := by
    rw [hsort]
    exact List.sorted_insertionSort _ _
  refine ⟨by unfold keyRank; exact List.indexOf_eq_length.mpr hk,
    fun k2 hk2 => by unfold keyRank; exact List.indexOf_lt_length.mpr hk2,
    ?_, hsorted, ?_⟩
  · rw [hsort]
    exact List.perm_insertionSort _ _
  · exact List.Pairwise.imp (fun hab hb => Nat.lt_of_le_of_lt hab hb) hsorted

/-- Claim C8, witness: a dataframe with the unknown combination
`("Foo","Bar")` and the canonical `("NU","New Users")`. -/
theorem C8_unknown_rank_last_witness :
    keyRank ("Foo", "Bar") = custom_order.length
    ∧ (∀ k2 ∈ custom_order, keyRank k2 < custom_order.length)
    ∧ (sort_category_cohorts
        { columns := ["category", "cohorts"],
          rows := [[Cell.str ("Foo"), Cell.str ("Bar")],
                   [Cell.str ("NU"), Cell.str ("New Users")]] }).rows.Perm
        [[Cell.str ("Foo"), Cell.str ("Bar")],
         [Cell.str ("NU"), Cell.str ("New Users")]] := by
  have h := C8_unknown_rank_last
    { columns := ["category", "cohorts"],
      rows := [[Cell.str ("Foo"), Cell.str ("Bar")],
               [Cell.str ("NU"), Cell.str ("New Users")]] }
    ("Foo", "Bar") (by decide) (by decide)
  exact ⟨h.1, h.2.1, h.2.2.1⟩

/-- Claim C9: in the DoD and city views (`app.py` lines 334-336,
487-489) the delta columns are appended exactly when the pivot has two
distinct date columns; otherwise the branch is skipped and the pivot
is rendered unchanged, with no error.  If every raw row carries one
same date (selected = compare, or data on one side only), the built
pivot has at most one date column, so no delta columns appear. -/
theorem C9_delta_iff_two_dates (p : Pivot) (rs : List RawRow) (d : ℕ) :
    ((dodRender p).hasDelta = true ↔ p.dates.length = 2)
    ∧ (p.dates.length ≠ 2 → dodRender p = DodView.plain p)
    ∧ ((∀ r ∈ rs, r.start_date = d) →
        (dodRender (buildPivot rs)).hasDelta = false) := by
  refine ⟨?_, ?_, ?_⟩
  · by_cases h : p.dates.length = 2 <;> simp [dodRender, DodView.hasDelta, h]
  · intro h
    simp [dodRender, h]
  · intro h
    have hone : (buildPivot rs).dates.length ≤ 1 := by
      have hperm : (pivotDates rs).Perm (rs.map RawRow.start_date).dedup :=
        List.perm_insertionSort _ _
      have hconst : ∀ x ∈ (rs.map RawRow.start_date).dedup, x = d := by
        intro x hx
        rcases List.mem_map.mp (List.mem_dedup.mp hx) with ⟨r, hr, hrx⟩
        exact hrx ▸ h r hr
      have hlen : (rs.map RawRow.start_date).dedup.length ≤ 1 :=
        length_le_one_of_nodup_const (List.nodup_dedup _) hconst
      calc (buildPivot rs).dates.length
          = (rs.map RawRow.start_date).dedup.length := hperm.length_eq
        _ ≤ 1 := hlen
    have hne : (buildPivot rs).dates.length ≠ 2 := by omega
    simp [dodRender, hne, DodView.hasDelta]

/-- Claim C9, witness: a one-date pivot is rendered unchanged with no
delta columns; a two-date pivot gets them; a raw-row set with a single
date yields a pivot rendered without delta columns. -/
theorem C9_delta_iff_two_dates_witness :
    dodRender { dates := [3], rows := [(("NU", "New Users"), [PVal.fin 5])] } =
      DodView.plain { dates := [3], rows := [(("NU", "New Users"), [PVal.fin 5])] }
    ∧ (dodRender
        { dates := [3, 4],
          rows := [(("NU", "New Users"), [PVal.fin 5, PVal.fin 6])] }).hasDelta = true
    ∧ (dodRender (buildPivot [⟨"NU", "New Users", 3, 5⟩])).hasDelta = false := by
  refine ⟨?_, ?_, ?_⟩
  · exact (C9_delta_iff_two_dates _ [] 0).2.1 (by decide)
  · exact (C9_delta_iff_two_dates _ [] 0).1.mpr (by decide)
  · exact (C9_delta_iff_two_dates { dates := [], rows := [] }
      [⟨"NU", "New Users", 3, 5⟩] 3).2.2 (by decide)

/-- Claim C10: when the input dataframe lacks a `category` or a
`cohorts` column, `sort_category_cohorts` (`utils.py` lines 184-192)
returns it completely unchanged — same columns, same rows, same order. -/
theorem C10_missing_columns_unchanged (df : DataFrame)
    (h : "category" ∉ df.columns ∨ "cohorts" ∉ df.columns) :
    sort_category_cohorts df = df := by
  have hc : ¬("category" ∈ df.columns ∧ "cohorts" ∈ df.columns) := by
    rcases h with h | h
    · exact fun hboth => h hboth.1
    · exact fun hboth => h hboth.2
  simp [sort_category_cohorts, hc]

/-- Claim C10, witness: a city-level dataframe with no `category`
column passes through unchanged. -/
theorem C10_missing_columns_unchanged_witness :
    sort_category_cohorts
      { columns := ["city", "base"],
        rows := [[Cell.str ("Bangalore"), Cell.num (PVal.fin 100)],
                 [Cell.str ("Chennai"), Cell.num (PVal.fin 50)]] } =
      { columns := ["city", "base"],
        rows := [[Cell.str ("Bangalore"), Cell.num (PVal.fin 100)],
                 [Cell.str ("Chennai"), Cell.num (PVal.fin 50)]] } :=
  C10_missing_columns_unchanged _ (Or.inl (by decide))
